import Mathlib

/-!
Verification development for the dbtool table-replication engine
(`src/main.go`).  The Go code is shallowly embedded: strings are modelled
as `List Char` (`Str`), the pure SQL-text builders (`quoteIdent`,
`mapColumnType`, `buildSelectColumns`, `buildInsertColumns`,
`reorderArgs`, `buildCreateTableDDL`, `buildInsertSQL`, the query
construction inside `copyTable`) are translated function by function, and
the effectful parts of `copyTable` / `ensureTargetTable` are embedded as a
deterministic state machine over an abstract environment `Env` that fixes
the outcome of every database interaction (count queries, extraction,
table-existence probe, DDL execution, inserts, commits) and records the
statements executed against the target store as a trace of `Event`s.

Unicode notes: Go's `strings.ToUpper`/`ToLower` are modelled with Lean's
ASCII `Char.toUpper`/`Char.toLower`, and `strings.TrimSpace` with the
Latin-1 part of `unicode.IsSpace`; every identifier appearing in the
claims is ASCII, where the two agree.
-/

/-- Strings of the Go program, modelled as lists of characters. -/
abbrev Str := List Char

/-- The Latin-1 fragment of Go `unicode.IsSpace` (`\t \n \v \f \r ' '`,
U+0085, U+00A0). -/
def goIsSpace (c : Char) : Bool :=
  c = '\t' || c = '\n' || c = '\x0b' || c = '\x0c' || c = '\r' || c = ' ' ||
  c = '\x85' || c = '\xa0'

/-- Go `strings.TrimSpace`. -/
def goTrimSpace (s : Str) : Str :=
  ((s.dropWhile goIsSpace).reverse.dropWhile goIsSpace).reverse

/-- Go `strings.ToUpper` (ASCII fragment). -/
def goToUpper (s : Str) : Str := s.map Char.toUpper

/-- Go `strings.ToLower` (ASCII fragment). -/
def goToLower (s : Str) : Str := s.map Char.toLower

/-- Go `strings.HasPrefix s p`. -/
def goHasPrefix (s p : Str) : Bool := p.isPrefixOf s

/-- Go `strings.HasSuffix s p`. -/
def goHasSuffix (s p : Str) : Bool := p.isSuffixOf s

/-- Go `strings.Contains s sub`. -/
def goContains (s sub : Str) : Bool :=
  match s with
  | [] => sub.isEmpty
  | _ :: t => sub.isPrefixOf s || goContains t sub

/-- Go `strings.Join xs sep` (arguments: separator first here). -/
def goJoin (sep : Str) : List Str → Str
  | [] => []
  | [x] => x
  | x :: xs => x ++ sep ++ goJoin sep xs

/-- `main.go:578` `normalizeDriver`: lower-case, trim, collapse the
`mssql` alias to `sqlserver`. -/
def normalizeDriver (d : Str) : Str :=
  let d := goToLower (goTrimSpace d)
  if d = "mssql".data then "sqlserver".data else d

/-- The per-branch body of `quoteIdent` (`main.go:1424`–`1444`): if the
name already starts with `oc` and ends with `cc` it is returned
unchanged, otherwise `f name` (identity, or upper-casing for Oracle) is
wrapped in the delimiters. -/
def quoteWith (oc cc : Char) (f : Str → Str) (name : Str) : Str :=
  if goHasPrefix name [oc] && goHasSuffix name [cc] then name
  else [oc] ++ f name ++ [cc]

/-- The driver dispatch of `quoteIdent` on an already-trimmed non-empty
name (`main.go:1423`–`1444`). -/
def quoteBody (name driver : Str) : Str :=
  let driver := normalizeDriver driver
  if driver = "postgres".data ∨ driver = "postgresql".data then
    quoteWith '"' '"' id name
  else if driver = "sqlserver".data ∨ driver = "mssql".data then
    quoteWith '[' ']' id name
  else if driver = "oracle".data then
    quoteWith '"' '"' goToUpper name
  else
    quoteWith '\x60' '\x60' id name

/-- `main.go:1417` `quoteIdent`: trim the identifier and wrap it in the
dialect's delimiters unless it already carries them; Oracle additionally
upper-cases the unquoted name. -/
def quoteIdent (name driver : Str) : Str :=
  let name := goTrimSpace name
  if name = [] then name
  else quoteBody name driver

/-- The dialect's identifier delimiters as chosen by `quoteIdent`
(`main.go:1423`–`1444`), for stating claims about it. -/
def dialectDelims (driver : Str) : Str × Str :=
  let d := normalizeDriver driver
  if d = "postgres".data ∨ d = "postgresql".data then ("\"".data, "\"".data)
  else if d = "sqlserver".data ∨ d = "mssql".data then ("[".data, "]".data)
  else if d = "oracle".data then ("\"".data, "\"".data)
  else ("`".data, "`".data)

/-- `main.go:1287` `mapColumnType`: ordered substring classification of
the (upper-cased) source database type name, per target dialect.  The
first argument is `ct.DatabaseTypeName()`. -/
def mapColumnType (dbTypeName driver : Str) : Str :=
  let dbType := goToUpper dbTypeName
  let driver := normalizeDriver driver
  if driver = "postgres".data ∨ driver = "postgresql".data then
    if goContains dbType "BIGINT".data then "BIGINT".data
    else if goContains dbType "INT".data then "BIGINT".data
    else if goContains dbType "DOUBLE".data || goContains dbType "FLOAT".data ||
        goContains dbType "REAL".data then "DOUBLE PRECISION".data
    else if goContains dbType "DECIMAL".data || goContains dbType "NUMERIC".data then
      "NUMERIC".data
    else if goContains dbType "BOOL".data then "BOOLEAN".data
    else if goContains dbType "DATE".data || goContains dbType "TIME".data then
      "TIMESTAMP".data
    else if goContains dbType "TEXT".data || goContains dbType "CHAR".data ||
        goContains dbType "CLOB".data then "TEXT".data
    else "TEXT".data
  else if driver = "mysql".data then
    if goContains dbType "INT".data then "INT".data
    else if goContains dbType "BIGINT".data then "BIGINT".data
    else if goContains dbType "DOUBLE".data || goContains dbType "FLOAT".data then
      "DOUBLE".data
    else if goContains dbType "DECIMAL".data || goContains dbType "NUMERIC".data then
      "DECIMAL(18,6)".data
    else if goContains dbType "BOOL".data || goContains dbType "TINYINT(1)".data then
      "TINYINT(1)".data
    else if goContains dbType "DATE".data || goContains dbType "TIME".data then
      "DATETIME".data
    else if goContains dbType "TEXT".data then "TEXT".data
    else if goContains dbType "CHAR".data then "VARCHAR(255)".data
    else "TEXT".data
  else if driver = "sqlserver".data ∨ driver = "mssql".data then
    if goContains dbType "INT".data then "INT".data
    else if goContains dbType "BIGINT".data then "BIGINT".data
    else if goContains dbType "FLOAT".data || goContains dbType "REAL".data then
      "FLOAT(53)".data
    else if goContains dbType "DECIMAL".data || goContains dbType "NUMERIC".data then
      "DECIMAL(18,6)".data
    else if goContains dbType "BIT".data then "BIT".data
    else if goContains dbType "DATE".data || goContains dbType "TIME".data then
      "DATETIME2".data
    else if goContains dbType "CHAR".data || goContains dbType "TEXT".data ||
        goContains dbType "NCHAR".data || goContains dbType "NVARCHAR".data then
      "NVARCHAR(MAX)".data
    else "NVARCHAR(MAX)".data
  else if driver = "oracle".data then
    if goContains dbType "INT".data || goContains dbType "NUMBER".data then
      "NUMBER".data
    else if goContains dbType "FLOAT".data || goContains dbType "BINARY_FLOAT".data then
      "BINARY_DOUBLE".data
    else if goContains dbType "DATE".data || goContains dbType "TIMESTAMP".data then
      "TIMESTAMP".data
    else if goContains dbType "CHAR".data || goContains dbType "VARCHAR".data ||
        goContains dbType "CLOB".data then "CLOB".data
    else "VARCHAR2(4000)".data
  else
    if goContains dbType "INT".data then "INTEGER".data
    else if goContains dbType "DOUBLE".data || goContains dbType "FLOAT".data ||
        goContains dbType "REAL".data then "REAL".data
    else if goContains dbType "DECIMAL".data || goContains dbType "NUMERIC".data then
      "NUMERIC".data
    else "TEXT".data

/-! ## Data model (`main.go:62`, `main.go:71`, `main.go:287`) -/

/-- `main.go:62` `columnMapping`: one source→target column mapping with
optional target-type, nullability and default-value overrides.  Field
defaults are the Go zero values. -/
structure columnMapping where
  Source : Str := []
  Target : Str := []
  TargetType : Str := []
  Nullable : Option Bool := none
  DefaultValue : Str := []
deriving DecidableEq

/-- `main.go:71` `copyTableOptions`.  Field defaults are the Go zero
values. -/
structure copyTableOptions where
  Table : Str := []
  TargetTable : Str := []
  Where : Str := []
  BatchSize : Int := 0
  DryRun : Bool := false
  Columns : List columnMapping := []
  AutoCreate : Bool := false
  IncrementalKey : Str := []
  Since : Str := []
  Until : Str := []
  SelectSQL : Str := []
deriving DecidableEq

/-- Metadata of one result-set column, modelling `*sql.ColumnType`:
`Name()`, `DatabaseTypeName()` and `Nullable()` (the `Option` is the
`(nullable, ok)` pair). -/
structure ColMeta where
  name : Str := []
  dbTypeName : Str := []
  nullable : Option Bool := none
deriving DecidableEq

/-- A scanned cell value; `null` models Go `nil` (SQL NULL). -/
inductive Value where
  | null : Value
  | int : Int → Value
  | str : Str → Value
deriving DecidableEq

/-- `main.go:287` `tableVerificationResult`. -/
structure tableVerificationResult where
  TableName : Str := []
  SourceCount : Int := 0
  TargetCount : Int := 0
  MigratedCount : Int := 0
  Diff : Int := 0
  HasDiff : Bool := false
deriving DecidableEq

/-- `main.go:701` `firstNonEmpty`: `a` if it trims non-empty, else `b`
(note: returns the untrimmed `a`). -/
def firstNonEmpty (a b : Str) : Str :=
  if goTrimSpace a ≠ [] then a else b

/-! ## Query planner (`main.go:764`–`824`, `buildSelectColumns`) -/

/-- `main.go:973` `buildSelectColumns`: `*` unless mappings name at least
one non-blank source column, in which case the comma-joined raw source
names. -/
def buildSelectColumns (opts : copyTableOptions) : Str :=
  if opts.Columns = [] then "*".data
  else
    let cols := opts.Columns.filterMap fun c =>
      if goTrimSpace c.Source = [] then none else some c.Source
    if cols = [] then "*".data else goJoin ", ".data cols

/-- The source row-count query text built at `main.go:764`–`789`: a
wrapped sub-select count for a custom select statement, otherwise
`SELECT COUNT(*) FROM table` plus the bare user predicate. -/
def sourceCountQuery (opts : copyTableOptions) : Str :=
  if goTrimSpace opts.SelectSQL ≠ [] then
    "SELECT COUNT(*) FROM (".data ++ opts.SelectSQL ++ ") AS tmp".data
  else
    "SELECT COUNT(*) FROM ".data ++ opts.Table ++
      (if goTrimSpace opts.Where ≠ [] then " WHERE ".data ++ opts.Where else [])

/-- The `whereClauses` list built at `main.go:807`–`818`: parenthesized
user predicate, then `key > 'since'`, then `key <= 'until'`. -/
def extractWhereClauses (opts : copyTableOptions) (srcDriver : Str) : List Str :=
  (if goTrimSpace opts.Where ≠ [] then ["(".data ++ opts.Where ++ ")".data] else []) ++
  (if goTrimSpace opts.IncrementalKey ≠ [] ∧ goTrimSpace opts.Since ≠ [] then
    [quoteIdent opts.IncrementalKey srcDriver ++ " > '".data ++ opts.Since ++ "'".data]
  else []) ++
  (if goTrimSpace opts.IncrementalKey ≠ [] ∧ goTrimSpace opts.Until ≠ [] then
    [quoteIdent opts.IncrementalKey srcDriver ++ " <= '".data ++ opts.Until ++ "'".data]
  else [])

/-- The extraction query text built at `main.go:796`–`821`: the custom
select statement verbatim when configured, otherwise
`SELECT cols FROM table [WHERE c1 AND c2 AND c3]`. -/
def extractQuery (opts : copyTableOptions) (srcDriver : Str) : Str :=
  if goTrimSpace opts.SelectSQL ≠ [] then opts.SelectSQL
  else
    let base := "SELECT ".data ++ buildSelectColumns opts ++ " FROM ".data ++ opts.Table
    let wc := extractWhereClauses opts srcDriver
    if wc ≠ [] then base ++ " WHERE ".data ++ goJoin " AND ".data wc else base

/-! ## Insert building (`main.go:991`, `main.go:1028`, `main.go:1379`) -/

/-- The trimmed source→target rename map of `main.go:998`–`1009`, as a
lookup: keys are trimmed non-blank source names, values the trimmed
target names defaulted to the source name; a later mapping for the same
key overwrites an earlier one (Go map insertion). -/
def sourceToTarget (cols : List columnMapping) (name : Str) : Option Str :=
  ((cols.filterMap fun c =>
      let srcCol := goTrimSpace c.Source
      if srcCol = [] then none
      else
        let targetCol := goTrimSpace c.Target
        some (srcCol, if targetCol = [] then srcCol else targetCol)).filter
    (fun p => p.1 = name)).getLast?.map (·.2)

/-- `main.go:991` `buildInsertColumns`: with no mappings the source
columns stand; otherwise each source column with a mapping contributes
its target name, and an empty result falls back to all source columns. -/
def buildInsertColumns (sourceCols : List Str) (opts : copyTableOptions) : List Str :=
  if opts.Columns = [] then sourceCols
  else
    let result := sourceCols.filterMap (sourceToTarget opts.Columns)
    if result = [] then sourceCols else result

/-- The target→source reverse map of `main.go:1040`–`1051` as a lookup
(last mapping for a target name wins, as for Go map insertion). -/
def targetToSource (cols : List columnMapping) (name : Str) : Option Str :=
  ((cols.filterMap fun c =>
      let src := goTrimSpace c.Source
      if src = [] then none
      else
        let tgt := goTrimSpace c.Target
        some ((if tgt = [] then src else tgt), src)).filter
    (fun p => p.1 = name)).getLast?.map (·.2)

/-- The source-name→index map of `main.go:1034`–`1037` (last index for a
duplicated name wins). -/
def sourceIndexOf (sourceCols : List Str) (name : Str) : Option Nat :=
  ((sourceCols.enum.filter (fun p => p.2 = name)).getLast?).map (·.1)

/-- `main.go:1028` `reorderArgs`: map each insert column back to a source
position via the reverse mapping, fall back to an identity name match,
fall back to NULL. -/
def reorderArgs (sourceCols insertCols : List Str) (values : List Value)
    (opts : copyTableOptions) : List Value :=
  if insertCols = [] ∨ sourceCols = [] then values
  else
    insertCols.map fun targetCol =>
      match targetToSource opts.Columns targetCol with
      | some srcCol =>
        match sourceIndexOf sourceCols srcCol with
        | some idx => values.getD idx Value.null
        | none =>
          match sourceIndexOf sourceCols targetCol with
          | some idx => values.getD idx Value.null
          | none => Value.null
      | none =>
        match sourceIndexOf sourceCols targetCol with
        | some idx => values.getD idx Value.null
        | none => Value.null

/-- Decimal rendering of a positional placeholder index. -/
def natToStr (n : Nat) : Str := (Nat.repr n).data

/-- `main.go:1379` `buildInsertSQL`: quoted table and column list plus
per-dialect placeholders (`$n` postgres family, `:n` oracle, else `?`). -/
def buildInsertSQL (table : Str) (columns : List Str) (driver : Str) :
    Except Str Str :=
  if table = [] then Except.error "table name empty".data
  else if columns = [] then Except.error "column list empty".data
  else
    let colList := columns.map fun c => quoteIdent c driver
    let nd := normalizeDriver driver
    let placeholder :=
      if nd = "postgres".data ∨ nd = "postgresql".data then
        (List.range columns.length).map fun i => "$".data ++ natToStr (i + 1)
      else if nd = "oracle".data then
        (List.range columns.length).map fun i => ":".data ++ natToStr (i + 1)
      else
        (List.range columns.length).map fun _ => "?".data
    Except.ok ("INSERT INTO ".data ++ quoteIdent table driver ++ " (".data ++
      goJoin ", ".data colList ++ ") VALUES (".data ++
      goJoin ", ".data placeholder ++ ")".data)

/-! ## DDL synthesizer (`main.go:1150`–`1220`) -/

/-- The `colCfg` map of `main.go:1161`–`1166`: source name → mapping, for
mappings with a non-blank (raw) source name; a later mapping for the same
raw name overwrites an earlier one. -/
def colCfgLookup (cols : List columnMapping) (name : Str) : Option columnMapping :=
  (cols.filter fun c =>
    decide (goTrimSpace c.Source ≠ [] ∧ c.Source = name)).getLast?

/-- Target-type resolution for one column (`main.go:1187`–`1198`): the
trimmed explicit override when present, else `mapColumnType`; then the
MySQL large-row mitigation forces `VARCHAR`/`CHAR`-prefixed results to
`TEXT` when `useText` is set. -/
def resolveTargetType (useText : Bool) (driver : Str) (cfg? : Option columnMapping)
    (ct : ColMeta) : Str :=
  let targetType :=
    match cfg? with
    | some cfg =>
      if goTrimSpace cfg.TargetType ≠ [] then goTrimSpace cfg.TargetType
      else mapColumnType ct.dbTypeName driver
    | none => mapColumnType ct.dbTypeName driver
  if useText && (goHasPrefix targetType "VARCHAR".data ||
      goHasPrefix targetType "CHAR".data) then "TEXT".data
  else targetType

/-- One column definition of the emitted DDL (`main.go:1177`–`1215`):
resolved target name, resolved type, nullability, default expression. -/
def columnDefinition (cfg? : Option columnMapping) (useText : Bool) (driver : Str)
    (ct : ColMeta) : Str :=
  let targetName :=
    match cfg? with
    | some cfg =>
      if goTrimSpace cfg.Target ≠ [] then goTrimSpace cfg.Target else ct.name
    | none => ct.name
  let targetType := resolveTargetType useText driver cfg? ct
  let nullable :=
    match cfg? with
    | some cfg =>
      match cfg.Nullable with
      | some n => n
      | none => ct.nullable.getD true
    | none => ct.nullable.getD true
  let d := quoteIdent targetName driver ++ " ".data ++ targetType
  let d := if nullable then d else d ++ " NOT NULL".data
  match cfg? with
  | some cfg =>
    if goTrimSpace cfg.DefaultValue ≠ [] then d ++ " DEFAULT ".data ++ cfg.DefaultValue
    else d
  | none => d

/-- `main.go:1150` `buildCreateTableDDL`: emits one `CREATE TABLE` with
comma-joined column definitions; `useText` (the MySQL large-row
mitigation) is set exactly when the normalized driver is `mysql` and the
table has more than 30 columns. -/
def buildCreateTableDDL (table : Str) (colTypes : List ColMeta) (driver : Str)
    (opts : copyTableOptions) : Except Str Str :=
  if table = [] then Except.error "table name empty".data
  else if colTypes = [] then Except.error "no columns".data
  else
    let driver := normalizeDriver driver
    let useText := decide (driver = "mysql".data) && decide (colTypes.length > 30)
    let colsDDL := colTypes.map fun ct =>
      columnDefinition (colCfgLookup opts.Columns ct.name) useText driver ct
    Except.ok ("CREATE TABLE ".data ++ quoteIdent table driver ++ " (\n  ".data ++
      goJoin ",\n  ".data colsDDL ++ "\n)".data)

/-! ## Dialect adapter: table-existence probe (`main.go:1104`–`1146`) -/

/-- The existence-probe query and bound arguments chosen by
`main.go:1104` `checkTableExists` per dialect (the default branch probes
with a bounded select and no arguments). -/
def checkTableExistsQuery (driver table : Str) : Str × List Str :=
  let driver := normalizeDriver driver
  if driver = "postgres".data ∨ driver = "postgresql".data then
    ("SELECT 1 FROM information_schema.tables WHERE table_schema = current_schema() AND table_name = $1".data,
     [table])
  else if driver = "mysql".data then
    ("SELECT 1 FROM information_schema.tables WHERE table_schema = DATABASE() AND table_name = ?".data,
     [table])
  else if driver = "sqlite3".data then
    ("SELECT 1 FROM sqlite_master WHERE type='table' AND name = ?".data, [table])
  else if driver = "sqlserver".data ∨ driver = "mssql".data then
    ("SELECT 1 FROM sys.tables AS t INNER JOIN sys.schemas AS s ON t.schema_id = s.schema_id WHERE s.name = SCHEMA_NAME() AND t.name = @p1".data,
     [table])
  else if driver = "oracle".data then
    ("SELECT 1 FROM user_tables WHERE table_name = :1".data, [goToUpper table])
  else
    ("SELECT 1 FROM ".data ++ quoteIdent table driver ++ " LIMIT 1".data, [])

/-! ## Reconciliation (`main.go:956`–`966`, `main.go:440`–`453`) -/

/-- The three per-job reconciliation verdicts logged at
`main.go:959`–`965`. -/
inductive Reconciliation where
  | matched : Reconciliation
  | surplus : Reconciliation
  | deficit : Reconciliation
deriving DecidableEq

/-- The per-job reconciliation of `main.go:956`–`966`: computed only when
both counts are non-negative, from `diff = targetCount - sourceCount`. -/
def classify (sourceCount targetCount : Int) : Option Reconciliation :=
  if 0 ≤ sourceCount ∧ 0 ≤ targetCount then
    let diff := targetCount - sourceCount
    if diff = 0 then some Reconciliation.matched
    else if diff > 0 then some Reconciliation.surplus
    else some Reconciliation.deficit
  else none

/-- The per-table verification record built at `main.go:440`–`453` in
`runWithConfig`: `Diff`/`HasDiff` are set only when both counts are
non-negative. -/
def mkVerification (table : Str) (migrated sourceCount targetCount : Int) :
    tableVerificationResult :=
  let base : tableVerificationResult :=
    { TableName := table, SourceCount := sourceCount, TargetCount := targetCount,
      MigratedCount := migrated }
  if 0 ≤ sourceCount ∧ 0 ≤ targetCount then
    { base with Diff := targetCount - sourceCount,
                HasDiff := decide (targetCount - sourceCount ≠ 0) }
  else base

/-! ## The copy engine as a state machine (`main.go:751`–`969`)

`copyTable` interacts with the source and target stores.  The
environment `Env` fixes the outcome of each interaction: whether each
query/statement succeeds and what data it yields.  The trace records
every statement issued against the target store (`execDDL`,
`execInsert`, `commit` — the mutating ones) plus the planned statements
logged before/instead of execution (`logDDL`, `logInsertSQL`).
`BeginTx`/`Rollback` are not traced: they mutate nothing.  Scanned rows
are materialized up front in `Env.rows`; a row-iteration/scan error is
modelled by the `rowsErrOk` flag checked where the code checks
`rows.Err()`. -/

/-- One traced interaction with the target store. -/
inductive Event where
  | execDDL : Str → Event
  | logDDL : Str → Event
  | logInsertSQL : Str → Event
  | execInsert : Str → List Value → Event
  | commit : Nat → Event
deriving DecidableEq

/-- Events that mutate the target store: executed DDL, executed inserts,
transaction commits. -/
def Event.isMutation : Event → Bool
  | Event.execDDL _ => true
  | Event.execInsert _ _ => true
  | Event.commit _ => true
  | _ => false

/-- Commit events. -/
def Event.isCommit : Event → Bool
  | Event.commit _ => true
  | _ => false

/-- Abstract outcome of every database interaction `copyTable` performs. -/
structure Env where
  srcDriver : Str := []
  dstDriver : Str := []
  sourceCountOk : Bool := true
  sourceCountVal : Int := 0
  extractOk : Bool := true
  colTypes : List ColMeta := []
  rows : List (List Value) := []
  rowsErrOk : Bool := true
  tableExists : Bool := true
  ddlExecOk : Bool := true
  beginTxOk : Bool := true
  insertOk : Bool := true
  commitOk : Bool := true
  targetCountOk : Bool := true
  targetCountVal : Int := 0
deriving DecidableEq

/-- The success result of `copyTable` (`main.go:969`): migrated count,
source count, target count.  Elapsed wall-clock time is not modelled. -/
structure CopyOk where
  migrated : Int
  sourceCount : Int
  targetCount : Int
deriving DecidableEq

/-- `main.go:1074` `ensureTargetTable`: probe existence (probe errors are
swallowed into `false` inside `checkTableExists`), build the DDL, log it,
and execute it unless in dry-run. -/
def ensureTargetTable (env : Env) (table : Str) (colTypes : List ColMeta)
    (opts : copyTableOptions) : Except Str Unit × List Event :=
  if table = [] then (Except.error "target table name empty".data, [])
  else if env.tableExists then (Except.ok (), [])
  else
    match buildCreateTableDDL table colTypes env.dstDriver opts with
    | Except.error e => (Except.error e, [])
    | Except.ok ddl =>
      if opts.DryRun then (Except.ok (), [Event.logDDL ddl])
      else if env.ddlExecOk then (Except.ok (), [Event.logDDL ddl, Event.execDDL ddl])
      else (Except.error "create table failed".data, [Event.logDDL ddl, Event.execDDL ddl])

/-- The row loop of `main.go:879`–`927` plus the post-loop `rows.Err`
check and final commit (`main.go:919`–`927`).  Arguments: remaining rows,
processed count, current batch count.  Returns the final processed count
or the first error, together with the trace. -/
def writeLoop (env : Env) (opts : copyTableOptions) (cols insertCols : List Str)
    (insertSQL : Str) : List (List Value) → Nat → Nat → Except Str Nat × List Event
  | [], count, _ =>
    if env.rowsErrOk then
      if opts.DryRun then (Except.ok count, [])
      else if env.commitOk then (Except.ok count, [Event.commit count])
      else (Except.error "final commit failed".data, [Event.commit count])
    else (Except.error "row iteration failed".data, [])
  | r :: rest, count, batchCount =>
    let args := reorderArgs cols insertCols r opts
    if opts.DryRun then
      writeLoop env opts cols insertCols insertSQL rest (count + 1) (batchCount + 1)
    else if env.insertOk then
      if ((batchCount + 1 : Nat) : Int) ≥ opts.BatchSize then
        if env.commitOk then
          if env.beginTxOk then
            let res := writeLoop env opts cols insertCols insertSQL rest (count + 1) 0
            (res.1, Event.execInsert insertSQL args :: Event.commit (count + 1) :: res.2)
          else (Except.error "begin new tx failed".data,
            [Event.execInsert insertSQL args, Event.commit (count + 1)])
        else (Except.error "commit failed".data,
          [Event.execInsert insertSQL args, Event.commit (count + 1)])
      else
        let res := writeLoop env opts cols insertCols insertSQL rest (count + 1) (batchCount + 1)
        (res.1, Event.execInsert insertSQL args :: res.2)
    else (Except.error "insert failed".data, [Event.execInsert insertSQL args])

/-- `main.go:752`–`754`: default the batch size to 1000 when
non-positive. -/
def withBatchDefault (opts : copyTableOptions) : copyTableOptions :=
  if opts.BatchSize ≤ 0 then { opts with BatchSize := 1000 } else opts

/-- `main.go:751` `copyTable` as a state machine over `Env`: source
count (failure downgraded to `-1`), extraction, optional auto-create,
insert building, batched transactional writing, target count (failure
downgraded to `-1`). -/
def copyTable (env : Env) (opts0 : copyTableOptions) :
    Except Str CopyOk × List Event :=
  let opts := withBatchDefault opts0
  let targetTable := firstNonEmpty opts.TargetTable opts.Table
  let sourceCount : Int := if env.sourceCountOk then env.sourceCountVal else -1
  if env.extractOk then
    let cols := env.colTypes.map (·.name)
    if cols = [] then (Except.error "table has no columns".data, [])
    else
      match (if opts.AutoCreate then ensureTargetTable env targetTable env.colTypes opts
             else (Except.ok (), [])) with
      | (Except.error e, evs) => (Except.error e, evs)
      | (Except.ok _, evs) =>
        let insertCols := buildInsertColumns cols opts
        match buildInsertSQL targetTable insertCols env.dstDriver with
        | Except.error e => (Except.error e, evs)
        | Except.ok insertSQL =>
          let evs := evs ++ (if opts.DryRun then [Event.logInsertSQL insertSQL] else [])
          if env.beginTxOk then
            match writeLoop env opts cols insertCols insertSQL env.rows 0 0 with
            | (Except.error e, levs) => (Except.error e, evs ++ levs)
            | (Except.ok count, levs) =>
              let targetCount : Int := if env.targetCountOk then env.targetCountVal else -1
              (Except.ok ⟨(count : Int), sourceCount, targetCount⟩, evs ++ levs)
          else (Except.error "begin tx failed".data, evs)
  else (Except.error "query source failed".data, [])

/-! ## Concrete instances used by counterexamples and witnesses -/

/-- Whether an `Except` result is a success containing `sub` as a
substring. -/
def exceptContains (e : Except Str Str) (sub : Str) : Bool :=
  match e with
  | Except.ok s => goContains s sub
  | Except.error _ => false

/-- Whether an `Except` result is a success. -/
def exceptOk {α : Type} (e : Except Str α) : Bool :=
  match e with
  | Except.ok _ => true
  | Except.error _ => false

/-- An incremental job without a custom select: table `t`, incremental
key `id`, lower bound `5`. -/
def c1Opts : copyTableOptions :=
  { Table := "t".data, IncrementalKey := "id".data, Since := "5".data }

/-- A job whose count query carries the user predicate: table `t`,
predicate `a=1`, incremental key `id` with both bounds. -/
def c1wOpts : copyTableOptions :=
  { Table := "t".data, Where := "a=1".data, IncrementalKey := "id".data,
    Since := "5".data, Until := "9".data }

/-- 31 source columns, all reported as `VARCHAR`; the first is named
`a`. -/
def c3ColTypes : List ColMeta :=
  { name := "a".data, dbTypeName := "VARCHAR".data } ::
    List.replicate 30 { name := "b".data, dbTypeName := "VARCHAR".data }

/-- A mapping giving column `a` the explicit target type
`VARCHAR(100)`. -/
def c3cfg : columnMapping :=
  { Source := "a".data, TargetType := "VARCHAR(100)".data }

/-- Options carrying only the `c3cfg` override. -/
def c3Opts : copyTableOptions := { Table := "t".data, Columns := [c3cfg] }

/-- A `VARCHAR` source column named `a`. -/
def c3ct : ColMeta := { name := "a".data, dbTypeName := "VARCHAR".data }

/-- A job with a custom select statement and a column mapping
`a → x`. -/
def c4Opts : copyTableOptions :=
  { SelectSQL := "SELECT a, b FROM t".data,
    Columns := [{ Source := "a".data, Target := "x".data }] }

/-- A dry-run job with auto-create requested. -/
def c5Opts : copyTableOptions :=
  { Table := "t".data, BatchSize := 2, DryRun := true, AutoCreate := true }

/-- An environment for the dry-run witness: the target table is absent
and every interaction would succeed. -/
def c5Env : Env :=
  { srcDriver := "sqlite3".data, dstDriver := "sqlite3".data,
    colTypes := [{ name := "c".data, dbTypeName := "INT".data }],
    rows := List.replicate 5 [Value.int 1],
    sourceCountVal := 5, targetCountVal := 0, tableExists := false }

/-- The 2500-row environment of the batching claim: every interaction
succeeds, the source yields 2500 rows of one column. -/
def c6Env : Env :=
  { srcDriver := "sqlite3".data, dstDriver := "sqlite3".data,
    colTypes := [{ name := "c".data, dbTypeName := "INT".data }],
    rows := List.replicate 2500 [Value.int 1],
    sourceCountVal := 2500, targetCountVal := 2500 }

/-- A job with `batchSize = 1000`. -/
def c6Opts : copyTableOptions := { Table := "t".data, BatchSize := 1000 }

/-- An environment whose source row-count query fails and whose target
row-count query succeeds with 7; everything else succeeds. -/
def c8Env : Env :=
  { srcDriver := "sqlite3".data, dstDriver := "sqlite3".data,
    sourceCountOk := false, sourceCountVal := 0,
    colTypes := [{ name := "c".data, dbTypeName := "INT".data }],
    rows := List.replicate 7 [Value.int 1],
    targetCountVal := 7 }

/-- A plain two-batch job over table `t`. -/
def c8Opts : copyTableOptions := { Table := "t".data, BatchSize := 3 }

/-! ## Helper lemmas -/

theorem goContains_iff {s sub : Str} : goContains s sub = true ↔ sub <:+: s := by
  induction s with
  | nil => simp [goContains]
  | cons a t ih =>
    simp [goContains, ih, List.infix_cons_iff]

theorem head?_of_prefix_single {c : Char} {s : Str} (h : goHasPrefix s [c] = true) :
    s.head? = some c := by
  have hp : [c] <+: s := by simpa [goHasPrefix] using h
  obtain ⟨t, ht⟩ := hp
  rw [← ht]
  rfl

theorem getLast?_of_suffix_single {c : Char} {s : Str} (h : goHasSuffix s [c] = true) :
    s.getLast? = some c := by
  have hp : [c] <:+ s := by simpa [goHasSuffix] using h
  obtain ⟨t, ht⟩ := hp
  rw [← ht]
  simp

theorem goTrimSpace_eq_self {a b : Char} {s : Str} (hh : s.head? = some a)
    (hl : s.getLast? = some b) (h1 : goIsSpace a = false) (h2 : goIsSpace b = false) :
    goTrimSpace s = s := by
  unfold goTrimSpace
  have hd : s.dropWhile goIsSpace = s := by
    cases s with
    | nil => rfl
    | cons x t =>
      simp only [List.head?_cons, Option.some.injEq] at hh
      subst hh
      exact List.dropWhile_cons_of_neg (by simp [h1])
  rw [hd]
  have hrev : s.reverse.head? = some b := by rw [List.head?_reverse]; exact hl
  cases hr : s.reverse with
  | nil => rw [hr] at hrev; simp at hrev
  | cons y r =>
    rw [hr] at hrev
    simp only [List.head?_cons, Option.some.injEq] at hrev
    subst hrev
    rw [List.dropWhile_cons_of_neg (by simp [h2]), ← hr, List.reverse_reverse]

theorem quoteWith_stable {oc cc : Char} {f : Str → Str} {n : Str}
    (h : (goHasPrefix n [oc] && goHasSuffix n [cc]) = true) :
    quoteWith oc cc f n = n := by
  simp [quoteWith, h]

theorem quoteWith_quoted (oc cc : Char) (f : Str → Str) (n : Str) :
    (goHasPrefix (quoteWith oc cc f n) [oc] &&
      goHasSuffix (quoteWith oc cc f n) [cc]) = true := by
  unfold quoteWith
  split
  · assumption
  · simp only [goHasPrefix, goHasSuffix, Bool.and_eq_true, List.isPrefixOf_iff_prefix,
      List.isSuffixOf_iff_suffix]
    constructor
    · exact ⟨f n ++ [cc], by simp⟩
    · exact ⟨[oc] ++ f n, by simp⟩

theorem quoteWith_ne_nil (oc cc : Char) (f : Str → Str) (n : Str) (hn : n ≠ []) :
    quoteWith oc cc f n ≠ [] := by
  unfold quoteWith
  split
  · exact hn
  · simp

theorem quoteWith_trim {oc cc : Char} (hoc : goIsSpace oc = false)
    (hcc : goIsSpace cc = false) (f : Str → Str) (n : Str) :
    goTrimSpace (quoteWith oc cc f n) = quoteWith oc cc f n := by
  have hq := quoteWith_quoted oc cc f n
  rw [Bool.and_eq_true] at hq
  exact goTrimSpace_eq_self (head?_of_prefix_single hq.1) (getLast?_of_suffix_single hq.2)
    hoc hcc

theorem quoteBody_dispatch (driver : Str) :
    ∃ oc cc f, (∀ x : Str, quoteBody x driver = quoteWith oc cc f x) ∧
      goIsSpace oc = false ∧ goIsSpace cc = false ∧
      dialectDelims driver = ([oc], [cc]) ∧
      (normalizeDriver driver ≠ "oracle".data → f = id) := by
  by_cases h1 : normalizeDriver driver = "postgres".data ∨
      normalizeDriver driver = "postgresql".data
  · exact ⟨'"', '"', id, fun x => by simp [quoteBody, h1], by decide, by decide,
      by simp [dialectDelims, h1], fun _ => rfl⟩
  · by_cases h2 : normalizeDriver driver = "sqlserver".data ∨
        normalizeDriver driver = "mssql".data
    · exact ⟨'[', ']', id, fun x => by simp [quoteBody, h1, h2], by decide, by decide,
        by simp [dialectDelims, h1, h2], fun _ => rfl⟩
    · by_cases h3 : normalizeDriver driver = "oracle".data
      · exact ⟨'"', '"', goToUpper, fun x => by simp [quoteBody, h1, h2, h3],
          by decide, by decide, by simp [dialectDelims, h1, h2, h3],
          fun hno => absurd h3 hno⟩
      · exact ⟨'\x60', '\x60', id, fun x => by simp [quoteBody, h1, h2, h3], by decide,
          by decide, by simp [dialectDelims, h1, h2, h3], fun _ => rfl⟩

/-- Claim C9: identifier quoting is idempotent for every identifier name
and every driver tag, and an input that already carries the dialect's
quote delimiters (leading and trailing double-quote, bracket, or backtick
as appropriate) is returned unchanged. -/
theorem claimC9 (name driver : Str) :
    quoteIdent (quoteIdent name driver) driver = quoteIdent name driver ∧
    (name ≠ [] → goHasPrefix name (dialectDelims driver).1 = true →
      goHasSuffix name (dialectDelims driver).2 = true →
      quoteIdent name driver = name) := by
  obtain ⟨oc, cc, f, hqb, hoc, hcc, hdd, _⟩ := quoteBody_dispatch driver
  constructor
  · by_cases hm : goTrimSpace name = []
    · have h1 : quoteIdent name driver = [] := by simp [quoteIdent, hm]
      rw [h1]
      rfl
    · have h1 : quoteIdent name driver = quoteWith oc cc f (goTrimSpace name) := by
        simp [quoteIdent, hm, hqb]
      rw [h1]
      have hout_ne := quoteWith_ne_nil oc cc f (goTrimSpace name) hm
      have hout_trim := quoteWith_trim hoc hcc f (goTrimSpace name)
      have hout_q := quoteWith_quoted oc cc f (goTrimSpace name)
      calc quoteIdent (quoteWith oc cc f (goTrimSpace name)) driver
          = quoteBody (quoteWith oc cc f (goTrimSpace name)) driver := by
            simp [quoteIdent, hout_trim, hout_ne]
        _ = quoteWith oc cc f (quoteWith oc cc f (goTrimSpace name)) := hqb _
        _ = quoteWith oc cc f (goTrimSpace name) := quoteWith_stable hout_q
  · intro hne hp hs
    rw [hdd] at hp hs
    simp only at hp hs
    have hh := head?_of_prefix_single hp
    have hl := getLast?_of_suffix_single hs
    have htr : goTrimSpace name = name := goTrimSpace_eq_self hh hl hoc hcc
    have h1 : quoteIdent name driver = quoteBody name driver := by
      simp [quoteIdent, htr, hne]
    rw [h1, hqb]
    exact quoteWith_stable (by simp [hp, hs])

/-- Witness for C9: a postgres identifier already wrapped in double
quotes is returned unchanged, discharging the hypotheses at a concrete
input. -/
theorem claimC9_witness :
    quoteIdent "\"abc\"".data "postgres".data = "\"abc\"".data :=
  (claimC9 "\"abc\"".data "postgres".data).2 (by decide) (by decide) (by decide)

/-- Claim C10: Oracle quoting upper-cases the unquoted identifier
(`quoteIdent "name" "oracle" = "\"NAME\""`), the Oracle existence probe
binds the upper-cased table name, and for every non-Oracle driver
quoting returns the trimmed name either unchanged or merely wrapped in
the dialect's delimiters, without changing its characters. -/
theorem claimC10 :
    quoteIdent "name".data "oracle".data = "\"NAME\"".data ∧
    (∀ table : Str, (checkTableExistsQuery "oracle".data table).2 = [goToUpper table]) ∧
    (∀ name driver : Str, normalizeDriver driver ≠ "oracle".data →
      quoteIdent name driver = goTrimSpace name ∨
      quoteIdent name driver =
        (dialectDelims driver).1 ++ goTrimSpace name ++ (dialectDelims driver).2) := by
  refine ⟨by decide, fun table => rfl, ?_⟩
  intro name driver hno
  obtain ⟨oc, cc, f, hqb, _, _, hdd, hid⟩ := quoteBody_dispatch driver
  have hf : f = id := hid hno
  subst hf
  by_cases hm : goTrimSpace name = []
  · left
    simp [quoteIdent, hm]
  · rw [hdd]
    have h1 : quoteIdent name driver = quoteWith oc cc id (goTrimSpace name) := by
      simp [quoteIdent, hm, hqb]
    rw [h1]
    unfold quoteWith
    split
    · left
      rfl
    · right
      rfl

/-- Witness for C10: the non-Oracle clause applied to a concrete mysql
identifier. -/
theorem claimC10_witness :
    quoteIdent "abc".data "mysql".data = goTrimSpace "abc".data ∨
    quoteIdent "abc".data "mysql".data =
      (dialectDelims "mysql".data).1 ++ goTrimSpace "abc".data ++
        (dialectDelims "mysql".data).2 :=
  claimC10.2.2 "abc".data "mysql".data (by decide)

/-- Claim C7: reconciliation computes `diff = targetCount - sourceCount`
exactly when both counts are non-negative, classifies match/surplus/
deficit by the sign of the diff, and an uncountable side yields neither
a match nor a flagged discrepancy, both per job (`classify`) and in the
per-table results of a multi-table run (`mkVerification`). -/
theorem claimC7 (tbl : Str) (m s t : Int) :
    (classify s t = some Reconciliation.matched ↔ 0 ≤ s ∧ 0 ≤ t ∧ t - s = 0) ∧
    (classify s t = some Reconciliation.surplus ↔ 0 ≤ s ∧ 0 ≤ t ∧ t - s > 0) ∧
    (classify s t = some Reconciliation.deficit ↔ 0 ≤ s ∧ 0 ≤ t ∧ t - s < 0) ∧
    ((classify s t).isSome = true ↔ 0 ≤ s ∧ 0 ≤ t) ∧
    ((mkVerification tbl m s t).Diff = if 0 ≤ s ∧ 0 ≤ t then t - s else 0) ∧
    ((mkVerification tbl m s t).HasDiff = true ↔ 0 ≤ s ∧ 0 ≤ t ∧ t - s ≠ 0) := by
  have hcl : classify s t =
      if 0 ≤ s ∧ 0 ≤ t then
        (if t - s = 0 then some Reconciliation.matched
         else if t - s > 0 then some Reconciliation.surplus
         else some Reconciliation.deficit)
      else none := rfl
  rw [hcl]
  unfold mkVerification
  split_ifs with h h1 h2 <;> simp_all <;> omega

/-- Claim C2, evaluated at the failing input: translating a source
`BIGINT` column for the mysql and sqlserver dialects yields the 32-bit
`INT` (the `Contains "INT"` case shadows the dead `Contains "BIGINT"`
case), while postgres keeps `BIGINT`. -/
theorem claimC2_eval :
    mapColumnType "BIGINT".data "mysql".data = "INT".data ∧
    mapColumnType "BIGINT".data "sqlserver".data = "INT".data ∧
    mapColumnType "BIGINT".data "postgres".data = "BIGINT".data := by decide

theorem goJoin_cons_cons (sep y z : Str) (zs : List Str) :
    goJoin sep (y :: z :: zs) = y ++ sep ++ goJoin sep (z :: zs) := rfl

theorem infix_goJoin (sep : Str) {x : Str} {xs : List Str} (h : x ∈ xs) :
    x <:+: goJoin sep xs := by
  induction xs with
  | nil => cases h
  | cons y ys ih =>
    cases ys with
    | nil =>
      simp only [List.mem_singleton] at h
      subst h
      exact List.infix_refl _
    | cons z zs =>
      rcases List.mem_cons.mp h with h1 | h2
      · subst h1
        exact ⟨[], sep ++ goJoin sep (z :: zs), by
          simp [goJoin_cons_cons, List.append_assoc]⟩
      · obtain ⟨u, v, huv⟩ := ih h2
        exact ⟨(y ++ sep) ++ u, v, by
          simp [goJoin_cons_cons, List.append_assoc, huv]⟩

theorem infix_append_of_infix {x j : Str} (b : Str) (h : x <:+: j) :
    x <:+: b ++ j := by
  obtain ⟨u, v, huv⟩ := h
  exact ⟨b ++ u, v, by simp [List.append_assoc, huv]⟩

/-- Claim C1 counterexample: for an incremental job (key `id`, since
`5`, no user predicate) the extraction query contains the incremental
conjunct but the source `SELECT COUNT(*)` contains no such conjunct, so
the two queries do not apply the same filters. -/
theorem claimC1_counterexample :
    goContains (extractQuery c1Opts "sqlite3".data)
      (quoteIdent "id".data "sqlite3".data ++ " > '5'".data) = true ∧
    goContains (sourceCountQuery c1Opts)
      (quoteIdent "id".data "sqlite3".data ++ " > '5'".data) = false := by decide

/-- Claim C1 as amended: the non-custom source count query applies only
the user predicate (`SELECT COUNT(*) FROM table [WHERE where]`) and is
unchanged by the incremental key/since/until fields, while the
extraction query does contain the `key > 'since'` and `key <= 'until'`
conjuncts whenever they are configured. -/
theorem claimC1_amended (opts : copyTableOptions) (ik s u drv : Str) :
    sourceCountQuery { opts with IncrementalKey := ik, Since := s, Until := u } =
      sourceCountQuery opts ∧
    (goTrimSpace opts.SelectSQL = [] → goTrimSpace opts.Where ≠ [] →
      sourceCountQuery opts =
        "SELECT COUNT(*) FROM ".data ++ opts.Table ++ " WHERE ".data ++ opts.Where) ∧
    (goTrimSpace opts.SelectSQL = [] → goTrimSpace opts.Where = [] →
      sourceCountQuery opts = "SELECT COUNT(*) FROM ".data ++ opts.Table) ∧
    (goTrimSpace opts.SelectSQL = [] → goTrimSpace opts.IncrementalKey = [] ∨
        goTrimSpace opts.Since = [] →
      goTrimSpace opts.IncrementalKey = [] ∨ goTrimSpace opts.Until = [] →
      goTrimSpace opts.Where = [] →
      extractQuery opts drv =
        "SELECT ".data ++ buildSelectColumns opts ++ " FROM ".data ++ opts.Table) ∧
    (goTrimSpace opts.SelectSQL = [] → goTrimSpace opts.IncrementalKey ≠ [] →
      goTrimSpace opts.Since ≠ [] →
      goContains (extractQuery opts drv)
        (quoteIdent opts.IncrementalKey drv ++ " > '".data ++ opts.Since ++
          "'".data) = true) ∧
    (goTrimSpace opts.SelectSQL = [] → goTrimSpace opts.IncrementalKey ≠ [] →
      goTrimSpace opts.Until ≠ [] →
      goContains (extractQuery opts drv)
        (quoteIdent opts.IncrementalKey drv ++ " <= '".data ++ opts.Until ++
          "'".data) = true) := by
  refine ⟨rfl, ?_, ?_, ?_, ?_, ?_⟩
  · intro h1 h2
    simp [sourceCountQuery, h1, h2, List.append_assoc]
  · intro h1 h2
    simp [sourceCountQuery, h1, h2]
  · intro h1 h2 h3 h4
    have hwc : extractWhereClauses opts drv = [] := by
      unfold extractWhereClauses
      rcases h2 with h2 | h2 <;> rcases h3 with h3 | h3 <;> simp [h2, h3, h4]
    simp [extractQuery, h1, hwc]
  · intro h1 h2 h3
    rw [goContains_iff]
    have hmem : (quoteIdent opts.IncrementalKey drv ++ " > '".data ++ opts.Since ++
        "'".data) ∈ extractWhereClauses opts drv := by
      unfold extractWhereClauses
      simp [h2, h3, List.append_assoc]
    have hwc : extractWhereClauses opts drv ≠ [] := by
      intro hnil
      rw [hnil] at hmem
      cases hmem
    have hj := infix_goJoin " AND ".data hmem
    have : extractQuery opts drv =
        ("SELECT ".data ++ buildSelectColumns opts ++ " FROM ".data ++ opts.Table ++
          " WHERE ".data) ++ goJoin " AND ".data (extractWhereClauses opts drv) := by
      simp [extractQuery, h1, hwc, List.append_assoc]
    rw [this]
    exact infix_append_of_infix _ hj
  · intro h1 h2 h3
    rw [goContains_iff]
    have hmem : (quoteIdent opts.IncrementalKey drv ++ " <= '".data ++ opts.Until ++
        "'".data) ∈ extractWhereClauses opts drv := by
      unfold extractWhereClauses
      simp [h2, h3, List.append_assoc]
    have hwc : extractWhereClauses opts drv ≠ [] := by
      intro hnil
      rw [hnil] at hmem
      cases hmem
    have hj := infix_goJoin " AND ".data hmem
    have : extractQuery opts drv =
        ("SELECT ".data ++ buildSelectColumns opts ++ " FROM ".data ++ opts.Table ++
          " WHERE ".data) ++ goJoin " AND ".data (extractWhereClauses opts drv) := by
      simp [extractQuery, h1, hwc, List.append_assoc]
    rw [this]
    exact infix_append_of_infix _ hj

/-- Witness for the amended C1 at a concrete job: the count query is the
count over `t` with only the user predicate, and the extraction query
contains both incremental conjuncts. -/
theorem claimC1_witness :
    sourceCountQuery c1wOpts =
      "SELECT COUNT(*) FROM ".data ++ "t".data ++ " WHERE ".data ++ "a=1".data ∧
    goContains (extractQuery c1wOpts "sqlite3".data)
      (quoteIdent "id".data "sqlite3".data ++ " > '".data ++ "5".data ++
        "'".data) = true ∧
    goContains (extractQuery c1wOpts "sqlite3".data)
      (quoteIdent "id".data "sqlite3".data ++ " <= '".data ++ "9".data ++
        "'".data) = true :=
  ⟨(claimC1_amended c1wOpts [] [] [] "sqlite3".data).2.1 (by decide) (by decide),
   (claimC1_amended c1wOpts [] [] [] "sqlite3".data).2.2.2.2.1 (by decide) (by decide)
     (by decide),
   (claimC1_amended c1wOpts [] [] [] "sqlite3".data).2.2.2.2.2 (by decide) (by decide)
     (by decide)⟩

set_option maxRecDepth 4000 in
/-- Claim C3 counterexample: with 31 columns against mysql, the column
`a` whose mapping carries the explicit target type `VARCHAR(100)` is
emitted as `TEXT` — the override does not appear anywhere in the DDL, so
it does not always win. -/
theorem claimC3_counterexample :
    exceptOk (buildCreateTableDDL "t".data c3ColTypes "mysql".data c3Opts) = true ∧
    exceptContains (buildCreateTableDDL "t".data c3ColTypes "mysql".data c3Opts)
      "VARCHAR(100)".data = false ∧
    exceptContains (buildCreateTableDDL "t".data c3ColTypes "mysql".data c3Opts)
      "`a` TEXT".data = true := by decide

/-- Claim C3 as amended: a non-empty explicit target-type override wins
over the automatic type translation, but the MySQL large-row mitigation
still rewrites an override that starts with `VARCHAR`/`CHAR` to `TEXT`
when it applies (mysql target, more than 30 columns). -/
theorem claimC3_amended (useText : Bool) (driver : Str) (cfg : columnMapping)
    (ct : ColMeta) (h : goTrimSpace cfg.TargetType ≠ []) :
    resolveTargetType useText driver (some cfg) ct =
      if useText && (goHasPrefix (goTrimSpace cfg.TargetType) "VARCHAR".data ||
          goHasPrefix (goTrimSpace cfg.TargetType) "CHAR".data) then "TEXT".data
      else goTrimSpace cfg.TargetType := by
  simp [resolveTargetType, h]

/-- Witness for the amended C3: the concrete `VARCHAR(100)` override
under the active mitigation resolves to `TEXT`. -/
theorem claimC3_witness :
    resolveTargetType true "mysql".data (some c3cfg) c3ct = "TEXT".data :=
  (claimC3_amended true "mysql".data c3cfg c3ct (by decide)).trans (by decide)

/-- Claim C4 counterexample: with a custom select statement configured,
the column mapping `a → x` still changes the insert column list (so the
mapping is not disabled), and the count wrapper uses alias `tmp`, not
`_t`. -/
theorem claimC4_counterexample :
    buildInsertColumns ["a".data, "b".data] c4Opts = ["x".data] ∧
    buildInsertColumns ["a".data, "b".data] { c4Opts with Columns := [] } =
      ["a".data, "b".data] ∧
    goContains (sourceCountQuery c4Opts) ") AS _t".data = false ∧
    goContains (sourceCountQuery c4Opts) ") AS tmp".data = true := by decide

/-- Claim C4 as amended: a non-empty custom select statement is used
verbatim for extraction, the count query wraps it as
`SELECT COUNT(*) FROM (<select>) AS tmp`, and the WHERE and incremental
fields have no effect on either query (the column mappings, however,
still shape the insert column list and argument order). -/
theorem claimC4_amended (opts : copyTableOptions) (drv w ik s u : Str)
    (hsel : goTrimSpace opts.SelectSQL ≠ []) :
    extractQuery opts drv = opts.SelectSQL ∧
    sourceCountQuery opts =
      "SELECT COUNT(*) FROM (".data ++ opts.SelectSQL ++ ") AS tmp".data ∧
    extractQuery { opts with Where := w, IncrementalKey := ik, Since := s, Until := u } drv = opts.SelectSQL ∧
    sourceCountQuery { opts with Where := w, IncrementalKey := ik, Since := s, Until := u } = sourceCountQuery opts := by
  refine ⟨by simp [extractQuery, hsel], by simp [sourceCountQuery, hsel],
    by simp [extractQuery, hsel], by simp [sourceCountQuery, hsel]⟩

/-- Witness for the amended C4 at the concrete custom-select job. -/
theorem claimC4_witness :
    extractQuery c4Opts "sqlite3".data = c4Opts.SelectSQL ∧
    sourceCountQuery c4Opts =
      "SELECT COUNT(*) FROM (".data ++ c4Opts.SelectSQL ++ ") AS tmp".data :=
  ⟨(claimC4_amended c4Opts "sqlite3".data [] [] [] [] (by decide)).1,
   (claimC4_amended c4Opts "sqlite3".data [] [] [] [] (by decide)).2.1⟩

@[simp] theorem withBatchDefault_DryRun (o : copyTableOptions) :
    (withBatchDefault o).DryRun = o.DryRun := by
  unfold withBatchDefault
  split <;> rfl

@[simp] theorem withBatchDefault_AutoCreate (o : copyTableOptions) :
    (withBatchDefault o).AutoCreate = o.AutoCreate := by
  unfold withBatchDefault
  split <;> rfl

@[simp] theorem withBatchDefault_Table (o : copyTableOptions) :
    (withBatchDefault o).Table = o.Table := by
  unfold withBatchDefault
  split <;> rfl

@[simp] theorem withBatchDefault_TargetTable (o : copyTableOptions) :
    (withBatchDefault o).TargetTable = o.TargetTable := by
  unfold withBatchDefault
  split <;> rfl

theorem writeLoop_dryRun (env : Env) (opts : copyTableOptions)
    (cols insertCols : List Str) (insertSQL : Str) (hdry : opts.DryRun = true) :
    ∀ (rows : List (List Value)) (c b : Nat),
      writeLoop env opts cols insertCols insertSQL rows c b =
        (if env.rowsErrOk then Except.ok (c + rows.length)
         else Except.error "row iteration failed".data, []) := by
  intro rows
  induction rows with
  | nil =>
    intro c b
    cases hr : env.rowsErrOk <;> simp [writeLoop, hdry, hr]
  | cons r rest ih =>
    intro c b
    cases hr : env.rowsErrOk <;>
      simp [writeLoop, hdry, hr, ih, Nat.add_assoc, Nat.add_comm 1 rest.length]

theorem writeLoop_allOk (env : Env) (opts : copyTableOptions)
    (cols insertCols : List Str) (insertSQL : Str) (hr : env.rowsErrOk = true)
    (hi : env.insertOk = true) (hc : env.commitOk = true) (hb : env.beginTxOk = true) :
    ∀ (rows : List (List Value)) (c b : Nat),
      (writeLoop env opts cols insertCols insertSQL rows c b).1 =
        Except.ok (c + rows.length) := by
  intro rows
  induction rows with
  | nil =>
    intro c b
    cases hdr : opts.DryRun <;> simp [writeLoop, hr, hc, hdr]
  | cons r rest ih =>
    intro c b
    cases hdr : opts.DryRun
    · simp [writeLoop, hdr, hi, hc, hb, ih, Nat.add_assoc,
        Nat.add_comm 1 rest.length]
      split <;> rfl
    · simp [writeLoop, hdr, ih, Nat.add_assoc, Nat.add_comm 1 rest.length]

theorem buildCreateTableDDL_ok (table : Str) (colTypes : List ColMeta)
    (driver : Str) (opts : copyTableOptions) (ht : table ≠ []) (hc : colTypes ≠ []) :
    ∃ d, buildCreateTableDDL table colTypes driver opts = Except.ok d := by
  unfold buildCreateTableDDL
  rw [if_neg ht, if_neg hc]
  exact ⟨_, rfl⟩

theorem ensureTargetTable_dryRun (env : Env) (table : Str) (colTypes : List ColMeta)
    (opts : copyTableOptions) (hdry : opts.DryRun = true) :
    (ensureTargetTable env table colTypes opts).2.filter Event.isMutation = [] ∧
    (table ≠ [] → colTypes ≠ [] →
      (ensureTargetTable env table colTypes opts).1 = Except.ok () ∧
      (env.tableExists = false →
        ∃ d, Event.logDDL d ∈ (ensureTargetTable env table colTypes opts).2)) := by
  constructor
  · by_cases ht : table = []
    · simp [ensureTargetTable, ht]
    · by_cases hex : env.tableExists
      · simp [ensureTargetTable, ht, hex]
      · cases hbd : buildCreateTableDDL table colTypes env.dstDriver opts with
        | error e => simp [ensureTargetTable, ht, hex, hbd]
        | ok d => simp [ensureTargetTable, ht, hex, hbd, hdry, Event.isMutation]
  · intro ht hc
    obtain ⟨d, hd⟩ := buildCreateTableDDL_ok table colTypes env.dstDriver opts ht hc
    by_cases hex : env.tableExists
    · simp [ensureTargetTable, ht, hex]
    · refine ⟨by simp [ensureTargetTable, ht, hex, hd, hdry], fun _ => ?_⟩
      exact ⟨d, by simp [ensureTargetTable, ht, hex, hd, hdry]⟩

theorem buildInsertColumns_ne_nil (sourceCols : List Str) (opts : copyTableOptions)
    (h : sourceCols ≠ []) : buildInsertColumns sourceCols opts ≠ [] := by
  unfold buildInsertColumns
  split
  · exact h
  · by_cases hres : sourceCols.filterMap (sourceToTarget opts.Columns) = [] <;>
      simp [hres, h]

theorem buildInsertSQL_ok (table : Str) (columns : List Str) (driver : Str)
    (ht : table ≠ []) (hc : columns ≠ []) :
    ∃ s, buildInsertSQL table columns driver = Except.ok s := by
  unfold buildInsertSQL
  rw [if_neg ht, if_neg hc]
  exact ⟨_, rfl⟩

theorem copyTable_dry_noMut (env : Env) (opts : copyTableOptions)
    (hdry : opts.DryRun = true) :
    (copyTable env opts).2.filter Event.isMutation = [] := by
  have hdry' : (withBatchDefault opts).DryRun = true := by simp [hdry]
  unfold copyTable
  by_cases hx : env.extractOk
  · simp only [hx, if_true]
    by_cases hcols : env.colTypes.map ColMeta.name = []
    · simp [hcols]
    · rcases hE : (if (withBatchDefault opts).AutoCreate then
          ensureTargetTable env
            (firstNonEmpty (withBatchDefault opts).TargetTable
              (withBatchDefault opts).Table) env.colTypes (withBatchDefault opts)
        else (Except.ok (), [])) with ⟨r0, evs⟩
      have hevs : evs.filter Event.isMutation = [] := by
        by_cases hac : (withBatchDefault opts).AutoCreate
        · rw [if_pos hac] at hE
          have h1 := (ensureTargetTable_dryRun env
            (firstNonEmpty (withBatchDefault opts).TargetTable
              (withBatchDefault opts).Table) env.colTypes (withBatchDefault opts)
            hdry').1
          rw [hE] at h1
          exact h1
        · rw [if_neg hac] at hE
          cases hE
          rfl
      rw [if_neg hcols]
      cases r0 with
      | error e => simpa using hevs
      | ok u =>
        rcases hS : buildInsertSQL
            (firstNonEmpty (withBatchDefault opts).TargetTable
              (withBatchDefault opts).Table)
            (buildInsertColumns (env.colTypes.map ColMeta.name) (withBatchDefault opts))
            env.dstDriver with e | insertSQL
        · simpa [hS] using hevs
        · by_cases hbtx : env.beginTxOk
          · simp only [hS, hbtx, if_true,
              writeLoop_dryRun env (withBatchDefault opts) _ _ _ hdry' env.rows 0 0]
            cases hre : env.rowsErrOk <;>
              simp [hre, hdry', List.filter_append, hevs, Event.isMutation]
          · simp [hS, hbtx, hdry', List.filter_append, hevs, Event.isMutation]
  · simp [hx]

theorem copyTable_ok (env : Env) (opts : copyTableOptions)
    (hx : env.extractOk = true) (hcols : env.colTypes ≠ [])
    (hb : env.beginTxOk = true) (hr : env.rowsErrOk = true)
    (htt : firstNonEmpty opts.TargetTable opts.Table ≠ [])
    (hEns : opts.DryRun = true ∨ opts.AutoCreate = false)
    (hW : opts.DryRun = true ∨ (env.insertOk = true ∧ env.commitOk = true)) :
    (copyTable env opts).1 =
      Except.ok ⟨(env.rows.length : Int),
        if env.sourceCountOk then env.sourceCountVal else -1,
        if env.targetCountOk then env.targetCountVal else -1⟩ := by
  have hmapne : env.colTypes.map ColMeta.name ≠ [] := by simp [hcols]
  have htt' : firstNonEmpty (withBatchDefault opts).TargetTable
      (withBatchDefault opts).Table ≠ [] := by simpa using htt
  obtain ⟨sqlS, hS⟩ := buildInsertSQL_ok
    (firstNonEmpty (withBatchDefault opts).TargetTable (withBatchDefault opts).Table)
    (buildInsertColumns (env.colTypes.map ColMeta.name) (withBatchDefault opts))
    env.dstDriver htt' (buildInsertColumns_ne_nil _ _ hmapne)
  unfold copyTable
  simp only [hx, if_true]
  rw [if_neg hmapne]
  rcases hE : (if (withBatchDefault opts).AutoCreate = true then
      ensureTargetTable env
        (firstNonEmpty (withBatchDefault opts).TargetTable
          (withBatchDefault opts).Table) env.colTypes (withBatchDefault opts)
    else (Except.ok (), [])) with ⟨r0, evs⟩
  have hr0 : r0 = Except.ok () := by
    rcases hEns with hdry | hac
    · have hdry' : (withBatchDefault opts).DryRun = true := by simp [hdry]
      by_cases hac2 : (withBatchDefault opts).AutoCreate
      · rw [if_pos hac2] at hE
        have h1 := ((ensureTargetTable_dryRun env
          (firstNonEmpty (withBatchDefault opts).TargetTable
            (withBatchDefault opts).Table) env.colTypes (withBatchDefault opts)
          hdry').2 htt' hcols).1
        rw [hE] at h1
        exact h1
      · rw [if_neg hac2] at hE
        cases hE
        rfl
    · have hac2 : ¬((withBatchDefault opts).AutoCreate = true) := by simp [hac]
      rw [if_neg hac2] at hE
      cases hE
      rfl
  subst hr0
  rw [hS]
  simp only [hb, if_true]
  rcases hL : writeLoop env (withBatchDefault opts) (env.colTypes.map ColMeta.name)
      (buildInsertColumns (env.colTypes.map ColMeta.name) (withBatchDefault opts))
      sqlS env.rows 0 0 with ⟨res, levs⟩
  have hres : res = Except.ok env.rows.length := by
    rcases hW with hdry | ⟨hi, hc⟩
    · rw [writeLoop_dryRun env (withBatchDefault opts) _ _ _ (by simp [hdry])
        env.rows 0 0, hr] at hL
      simp only [if_true] at hL
      cases hL
      simp
    · have h2 := writeLoop_allOk env (withBatchDefault opts)
        (env.colTypes.map ColMeta.name)
        (buildInsertColumns (env.colTypes.map ColMeta.name) (withBatchDefault opts))
        sqlS hr hi hc hb env.rows 0 0
      rw [hL] at h2
      simpa using h2
  subst hres
  rfl

theorem copyTable_dry_trace (env : Env) (opts : copyTableOptions)
    (hdry : opts.DryRun = true) (hx : env.extractOk = true) (hcols : env.colTypes ≠ [])
    (hb : env.beginTxOk = true) (hr : env.rowsErrOk = true)
    (htt : firstNonEmpty opts.TargetTable opts.Table ≠ []) :
    ∃ evs sqlS,
      (copyTable env opts).2 = evs ++ [Event.logInsertSQL sqlS] ∧
      (opts.AutoCreate = true → env.tableExists = false →
        ∃ d, Event.logDDL d ∈ evs) := by
  have hdry' : (withBatchDefault opts).DryRun = true := by simp [hdry]
  have hmapne : env.colTypes.map ColMeta.name ≠ [] := by simp [hcols]
  have htt' : firstNonEmpty (withBatchDefault opts).TargetTable
      (withBatchDefault opts).Table ≠ [] := by simpa using htt
  obtain ⟨sqlS, hS⟩ := buildInsertSQL_ok
    (firstNonEmpty (withBatchDefault opts).TargetTable (withBatchDefault opts).Table)
    (buildInsertColumns (env.colTypes.map ColMeta.name) (withBatchDefault opts))
    env.dstDriver htt' (buildInsertColumns_ne_nil _ _ hmapne)
  unfold copyTable
  simp only [hx, if_true]
  rw [if_neg hmapne]
  rcases hE : (if (withBatchDefault opts).AutoCreate = true then
      ensureTargetTable env
        (firstNonEmpty (withBatchDefault opts).TargetTable
          (withBatchDefault opts).Table) env.colTypes (withBatchDefault opts)
    else (Except.ok (), [])) with ⟨r0, evs⟩
  have hEfacts := (ensureTargetTable_dryRun env
    (firstNonEmpty (withBatchDefault opts).TargetTable
      (withBatchDefault opts).Table) env.colTypes (withBatchDefault opts)
    hdry').2 htt' hcols
  have hr0 : r0 = Except.ok () := by
    by_cases hac2 : (withBatchDefault opts).AutoCreate
    · rw [if_pos hac2] at hE
      have h1 := hEfacts.1
      rw [hE] at h1
      exact h1
    · rw [if_neg hac2] at hE
      cases hE
      rfl
  subst hr0
  rw [hS]
  simp only [hb, if_true]
  rw [writeLoop_dryRun env (withBatchDefault opts) _ _ _ hdry' env.rows 0 0, hr]
  refine ⟨evs, sqlS, ?_, ?_⟩
  · simp [hdry', hdry]
  · intro hac hexists
    have hac2 : (withBatchDefault opts).AutoCreate = true := by simp [hac]
    rw [if_pos hac2] at hE
    have h2 := hEfacts.2 hexists
    rw [hE] at h2
    exact h2

/-- Claim C5: for every dry-run job, no mutating statement (insert, DDL,
commit) is ever executed against the target store, in every environment;
and on the normal path the migrated count, the source and target counts
(with failures downgraded to -1) are still computed, the planned INSERT
is logged, and the planned CREATE TABLE is logged when auto-create finds
the table absent. -/
theorem claimC5 (env : Env) (opts : copyTableOptions) (hdry : opts.DryRun = true) :
    (copyTable env opts).2.filter Event.isMutation = [] ∧
    (env.extractOk = true → env.colTypes ≠ [] → env.beginTxOk = true →
      env.rowsErrOk = true → firstNonEmpty opts.TargetTable opts.Table ≠ [] →
      (copyTable env opts).1 =
        Except.ok ⟨(env.rows.length : Int),
          if env.sourceCountOk then env.sourceCountVal else -1,
          if env.targetCountOk then env.targetCountVal else -1⟩ ∧
      (∃ sql, Event.logInsertSQL sql ∈ (copyTable env opts).2) ∧
      (opts.AutoCreate = true → env.tableExists = false →
        ∃ d, Event.logDDL d ∈ (copyTable env opts).2)) := by
  refine ⟨copyTable_dry_noMut env opts hdry, ?_⟩
  intro hx hcols hb hr htt
  obtain ⟨evs, sqlS, htr, hddl⟩ := copyTable_dry_trace env opts hdry hx hcols hb hr htt
  refine ⟨copyTable_ok env opts hx hcols hb hr htt (Or.inl hdry) (Or.inl hdry), ?_, ?_⟩
  · exact ⟨sqlS, by rw [htr]; simp⟩
  · intro hac hex
    obtain ⟨d, hd⟩ := hddl hac hex
    exact ⟨d, by rw [htr]; exact List.mem_append_left _ hd⟩

/-- Witness for C5 at a concrete dry-run auto-create job over an
environment where the target table is absent: no mutation is traced and
the result is still computed. -/
theorem claimC5_witness :
    (copyTable c5Env c5Opts).2.filter Event.isMutation = [] ∧
    (copyTable c5Env c5Opts).1 =
      Except.ok ⟨(c5Env.rows.length : Int),
        if c5Env.sourceCountOk then c5Env.sourceCountVal else -1,
        if c5Env.targetCountOk then c5Env.targetCountVal else -1⟩ :=
  ⟨(claimC5 c5Env c5Opts rfl).1,
   ((claimC5 c5Env c5Opts rfl).2 rfl (by decide) rfl rfl (by decide)).1⟩

set_option maxRecDepth 10000 in
/-- Claim C6: a non-dry-run job with batch size 1000 over a source of
exactly 2500 rows, with every insert succeeding, performs exactly three
commits — after 1000, 2000 and 2500 processed rows — and returns a
migrated count of 2500. -/
theorem claimC6 :
    (copyTable c6Env c6Opts).1.toOption = some ⟨2500, 2500, 2500⟩ ∧
    (copyTable c6Env c6Opts).2.filter Event.isCommit =
      [Event.commit 1000, Event.commit 2000, Event.commit 2500] := by decide

/-- Claim C8: a failing source or target row-count query is non-fatal —
the job still returns a nil error with the full migrated count, the
failing side's count (and only that count) is -1, and a -1 count
disables reconciliation (`classify` yields no verdict and the per-table
verification flags no discrepancy). -/
theorem claimC8 (env : Env) (opts : copyTableOptions)
    (hx : env.extractOk = true) (hcols : env.colTypes ≠ [])
    (hb : env.beginTxOk = true) (hr : env.rowsErrOk = true)
    (hi : env.insertOk = true) (hcm : env.commitOk = true)
    (hac : opts.AutoCreate = false)
    (htt : firstNonEmpty opts.TargetTable opts.Table ≠ []) :
    ∃ r, (copyTable env opts).1 = Except.ok r ∧
      r.migrated = (env.rows.length : Int) ∧
      r.sourceCount = (if env.sourceCountOk then env.sourceCountVal else -1) ∧
      r.targetCount = (if env.targetCountOk then env.targetCountVal else -1) ∧
      (env.sourceCountOk = false → r.sourceCount = -1 ∧
        classify r.sourceCount r.targetCount = none ∧
        (mkVerification opts.Table r.migrated r.sourceCount
          r.targetCount).HasDiff = false) ∧
      (env.targetCountOk = false → r.targetCount = -1 ∧
        classify r.sourceCount r.targetCount = none) := by
  refine ⟨_, copyTable_ok env opts hx hcols hb hr htt (Or.inr hac)
    (Or.inr ⟨hi, hcm⟩), rfl, rfl, rfl, ?_, ?_⟩
  · intro hsc
    refine ⟨by simp [hsc], ?_, ?_⟩
    · rw [hsc]
      simp only [Bool.false_eq_true, if_false]
      unfold classify
      rw [if_neg (by omega)]
    · rw [hsc]
      simp only [Bool.false_eq_true, if_false]
      unfold mkVerification
      rw [if_neg (by omega)]
  · intro htc
    refine ⟨by simp [htc], ?_⟩
    rw [htc]
    simp only [Bool.false_eq_true, if_false]
    unfold classify
    rw [if_neg (by omega)]

/-- Witness for C8: the concrete environment whose source count query
fails while everything else succeeds. -/
theorem claimC8_witness :
    ∃ r, (copyTable c8Env c8Opts).1 = Except.ok r ∧
      r.migrated = (c8Env.rows.length : Int) ∧
      r.sourceCount = (if c8Env.sourceCountOk then c8Env.sourceCountVal else -1) ∧
      r.targetCount = (if c8Env.targetCountOk then c8Env.targetCountVal else -1) ∧
      (c8Env.sourceCountOk = false → r.sourceCount = -1 ∧
        classify r.sourceCount r.targetCount = none ∧
        (mkVerification c8Opts.Table r.migrated r.sourceCount
          r.targetCount).HasDiff = false) ∧
      (c8Env.targetCountOk = false → r.targetCount = -1 ∧
        classify r.sourceCount r.targetCount = none) :=
  claimC8 c8Env c8Opts rfl (by decide) rfl rfl rfl rfl rfl (by decide)
